import Mathlib

/-!
Shallow embedding of the channel ingestion pipeline of the teldrive-bot
repository (Go sources under src/internal/tgc, src/cmd/run.go,
src/backup_2025_05_10/simplebot_main.go and
src/backup_2025_05_10_final/integrated_bot.go), together with theorems
settling the behavioural claims about it.

Modelling conventions:
- Go int64 values are modelled as Lean Int; all ids occurring in the claims
  are far inside the int64 range, and where a claim quantifies over ids the
  theorem carries the int64-range bound explicitly, so no wrap-around
  arithmetic needs to be modelled.
- The catalog store (Postgres) is external; each insert attempt is answered
  by an oracle of type InsertResult. dupKey models an error whose message
  contains the duplicate-key substring tested by the Go code; otherErr is any
  other store error.
- Generated UUIDs, timestamp strings and random tokens are nondeterministic
  inputs; they are passed in as parameters.
- Logging calls in the Go code have no effect on control flow and are not
  modelled. The Go Handle methods always return a nil error; the embedding
  returns the per-message effects only.
-/

namespace TeldriveBot

/-! ### Platform update data model (the tg.* shapes the handlers inspect) -/

/-- One attribute of a tg.Document. The handlers only distinguish
tg.DocumentAttributeFilename from every other attribute kind. -/
inductive DocAttribute where
  | filename (name : String)
  | otherAttr
deriving DecidableEq, Repr

/-- tg.DocumentClass: either a proper tg.Document (with id, size and
attributes; unused fields omitted) or any other variant, for which the Go
type assertion doc.Document.(*tg.Document) fails. -/
inductive DocumentClass where
  | document (id : Int) (size : Int) (attrs : List DocAttribute)
  | documentEmpty
deriving DecidableEq, Repr

/-- tg.MessageMediaClass as far as the handlers inspect it: a document
media or anything else (photo, webpage, ...). A message with nil Media is
modelled by Option.none at the use site. -/
inductive MessageMedia where
  | mediaDocument (doc : DocumentClass)
  | otherMedia
deriving DecidableEq, Repr

/-- tg.PeerClass carried in msg.PeerID. -/
inductive Peer where
  | peerUser (userId : Int)
  | peerChat (chatId : Int)
  | peerChannel (channelId : Int)
deriving DecidableEq, Repr

/-- tg.MessageClass: a proper tg.Message (id, peer, optional media; text,
date and flags omitted, they only feed logs) or another variant
(tg.MessageService, tg.MessageEmpty), for which the Go type assertion
update.Message.(*tg.Message) fails. -/
inductive MessageClass where
  | message (id : Int) (peerId : Peer) (media : Option MessageMedia)
  | messageEmpty
deriving DecidableEq, Repr

/-- tg.UpdateClass inside a batch: the handlers only distinguish
tg.UpdateNewChannelMessage from every other update kind. -/
inductive UpdateClass where
  | updateNewChannelMessage (msg : MessageClass)
  | otherUpdate
deriving DecidableEq, Repr

/-- tg.UpdatesClass, the top level shapes switched on by the Handle
methods: a batch (tg.Updates), a single-event short update
(tg.UpdateShort), the too-long notification (tg.UpdatesTooLong), and any
other shape (hit by the default case). -/
inductive UpdatesClass where
  | updates (us : List UpdateClass)
  | updateShort (u : UpdateClass)
  | updatesTooLong
  | otherUpdates
deriving DecidableEq, Repr

/-! ### Channel identity normalizer

The magnitude-threshold mapping appears verbatim in
bot_handler.go (Handle, lines 87-95), standalone_bot.go (Start lines
98-106 and handleChannelMessage lines 196-204) and integrated_bot.go
(Start lines 99-107 and handleChannelMessage lines 197-205); all copies
are this one computation. -/

/-- The configured-to-internal channel id mapping as implemented inline by
the handlers: for a negative configured id, subtract 10^12 from the
magnitude when the id is below -10^12, else subtract 10^6 when it is below
-10^6; every other id is returned unchanged. -/
def normalizeChannelId (channelId : Int) : Int :=
  if channelId < 0 then
    if channelId < -1000000000000 then -channelId - 1000000000000
    else if channelId < -1000000 then -channelId - 1000000
    else channelId
  else channelId

/-- The broadcast-class public encoding, as computed in run.go lines
117-126: actualChannelID = -1000000000000 - conf.Bot.ChannelId for a
positive configured id. -/
def denormalizeBroadcast (internalId : Int) : Int :=
  -1000000000000 - internalId

/-- The legacy-class public encoding public = -(10^6 + internal), from the
spec description of the platform encoding (section 4.1). -/
def denormalizeLegacy (internalId : Int) : Int :=
  -1000000 - internalId

/-- The startup validation performed by BotHandler.Start (bot_handler.go
lines 180-188): an empty bot token and a configured channel id of exactly 0
are rejected; nothing else is validated. -/
def botStartValidate (botToken : String) (channelId : Int) : Except String Unit :=
  if botToken = "" then .error "bot token is required"
  else if channelId = 0 then .error "channel ID is required"
  else .ok ()

/-! ### Catalog rows and store results -/

/-- Result of one insert attempt against the catalog store. dupKey models
an error whose message contains the duplicate-key substring the Go code
tests for; otherErr is any other store error. -/
inductive InsertResult where
  | ok
  | dupKey
  | otherErr
deriving DecidableEq, Repr

/-- One row as bound to the INSERT INTO teldrive.files statement. Columns a
variant does not include in its statement are Option.none (the integrated
handler omits category, encrypted, status and channel_id). createdAt,
updatedAt and the empty parts array are omitted: no claim concerns them. -/
structure FileRow where
  id : String
  name : String
  type : String
  mimeType : String
  size : Int
  category : Option String
  encrypted : Option Bool
  userId : Int
  status : Option String
  channelId : Option Int
  parentId : Option String
deriving DecidableEq, Repr

/-- Classification of what the handler did with one channel message; each
constructor corresponds to one early-return or success path in the Go
code. -/
inductive Outcome where
  | inserted
  | abandoned
  | missingFilename
  | notDocument
  | castFailed
  | filtered
  | ignoredPeer
  | dbUnavailable
deriving DecidableEq, Repr

/-- The first tg.DocumentAttributeFilename in the attribute list, or the
empty string: the Go loop over document.Attributes takes the FileName of
the first filename attribute and breaks. -/
def findFileName : List DocAttribute → String
  | [] => ""
  | .filename n :: _ => n
  | .otherAttr :: rest => findFileName rest

/-! ### Filename helpers (Go path/filepath and strings library calls)

The ingested filenames carry no path separator; the helpers are modelled
for separator-free strings, which is what every call site passes. -/

/-- The suffix of the character list starting at its last dot, if any. -/
def extFromLastDot : List Char → Option (List Char)
  | [] => none
  | c :: rest =>
    match extFromLastDot rest with
    | some e => some e
    | none => if c = '.' then some (c :: rest) else none

/-- Go filepath.Ext for separator-free names: the suffix beginning at the
final dot, or the empty string when there is no dot. -/
def filepathExt (s : String) : String :=
  match extFromLastDot s.data with
  | some e => String.mk e
  | none => ""

/-- Go filepath.Base for separator-free names: the name itself, except that
the empty string maps to ".". -/
def filepathBase (s : String) : String :=
  if s = "" then "." else s

/-- Split a character list at its last dot: base before the dot, extension
from the dot on. This is the strings.LastIndex split used by
integrated_bot.go lines 277-284. -/
def splitAtLastDot : List Char → Option (List Char × List Char)
  | [] => none
  | c :: rest =>
    match splitAtLastDot rest with
    | some (b, e) => some (c :: b, e)
    | none => if c = '.' then some ([], c :: rest) else none

/-! ### Standalone handler (standalone_bot.go) -/

/-- The row bound by standaloneUpdateHandler.processDocument (lines
275-290): MimeType hardcoded to application/octet-stream, Category
document, UserId 7331706161, Status active, ChannelId the message peer id,
ParentId nil. -/
def standaloneMkRow (fileName : String) (size : Int) (cid : Int) (rowId : String) : FileRow :=
  { id := rowId
    name := fileName
    type := "file"
    mimeType := "application/octet-stream"
    size := size
    category := some "document"
    encrypted := some false
    userId := 7331706161
    status := some "active"
    channelId := some cid
    parentId := none }

/-- The insert-and-retry phase of standaloneUpdateHandler.processDocument
(lines 307-357). res n answers the n-th insert attempt, ids n is the n-th
generated UUID, ts the formatted timestamp. On a duplicate-key error the
code retries exactly once, with "_" and the timestamp appended to the full
original name and a fresh id; any failure of that retry, and any
non-duplicate error of the first attempt, abandons the message. Returns the
list of attempted rows and the outcome. -/
def standaloneInsertPhase (res : Nat → InsertResult) (ids : Nat → String)
    (ts : String) (fileName : String) (size : Int) (cid : Int) :
    List FileRow × Outcome :=
  let row0 := standaloneMkRow fileName size cid (ids 0)
  match res 0 with
  | .ok => ([row0], .inserted)
  | .dupKey =>
    let row1 := { row0 with name := fileName ++ "_" ++ ts, id := ids 1 }
    match res 1 with
    | .ok => ([row0, row1], .inserted)
    | _ => ([row0, row1], .abandoned)
  | .otherErr => ([row0], .abandoned)

/-- standaloneUpdateHandler.processDocument (lines 236-358): cast the
document, find the filename attribute (empty means missing, early return),
test the database connection (dbOk; early return on failure), then run the
insert phase. -/
def standaloneProcessDocument (dbOk : Bool) (res : Nat → InsertResult)
    (ids : Nat → String) (ts : String) (doc : DocumentClass) (cid : Int) :
    List FileRow × Outcome :=
  match doc with
  | .documentEmpty => ([], .castFailed)
  | .document _ size attrs =>
    let fileName := findFileName attrs
    if fileName = "" then ([], .missingFilename)
    else if !dbOk then ([], .dbUnavailable)
    else standaloneInsertPhase res ids ts fileName size cid

/-- standaloneUpdateHandler.handleChannelMessage (lines 177-233): cast the
message; only channel peers are considered; the message channel id is
compared against both the raw configured id and its normalized form;
non-matching messages are only logged (ignored); matching messages with a
document media go to processDocument. -/
def standaloneHandleChannelMessage (confChannelId : Int) (dbOk : Bool)
    (res : Nat → InsertResult) (ids : Nat → String) (ts : String)
    (msg : MessageClass) : List FileRow × Outcome :=
  match msg with
  | .messageEmpty => ([], .castFailed)
  | .message _ peerId media =>
    match peerId with
    | .peerChannel cid =>
      if cid = confChannelId ∨ cid = normalizeChannelId confChannelId then
        match media with
        | some (.mediaDocument doc) => standaloneProcessDocument dbOk res ids ts doc cid
        | _ => ([], .notDocument)
      else ([], .filtered)
    | _ => ([], .ignoredPeer)

/-- standaloneUpdateHandler.Handle (lines 141-174): a tg.Updates batch is
unpacked and every tg.UpdateNewChannelMessage in it handled in order; a
tg.UpdateShort wrapping a tg.UpdateNewChannelMessage is handled the same
way; every other shape (tg.UpdatesTooLong and the default case) is only
logged. The store oracles are indexed per message position in the batch.
Returns one (attempts, outcome) pair per channel message reached. -/
def standaloneHandle (confChannelId : Int) (dbOk : Bool)
    (res : Nat → Nat → InsertResult) (ids : Nat → Nat → String) (ts : String)
    (updates : UpdatesClass) : List (List FileRow × Outcome) :=
  match updates with
  | .updates us =>
    us.enum.filterMap fun p =>
      match p.2 with
      | .updateNewChannelMessage m =>
        some (standaloneHandleChannelMessage confChannelId dbOk (res p.1) (ids p.1) ts m)
      | .otherUpdate => none
  | .updateShort u =>
    match u with
    | .updateNewChannelMessage m =>
      [standaloneHandleChannelMessage confChannelId dbOk (res 0) (ids 0) ts m]
    | .otherUpdate => []
  | .updatesTooLong => []
  | .otherUpdates => []

/-! ### Primary bot handler (bot_handler.go) -/

/-- BotHandler.handleNewMessage (bot_handler.go lines 318-442): cast the
message, require a tg.MessageMediaDocument media and a proper tg.Document,
find the filename attribute (empty means missing, early return), test the
database connection, then perform a single insert attempt with no retry of
any kind. The bound row hardcodes MimeType application/octet-stream and
sets ChannelId to the CONFIGURED channel id (line 369), not the peer id. -/
def botHandleNewMessage (confChannelId : Int) (dbOk : Bool)
    (res0 : InsertResult) (id0 : String) (msg : MessageClass) :
    List FileRow × Outcome :=
  match msg with
  | .messageEmpty => ([], .castFailed)
  | .message _ _ media =>
    match media with
    | some (.mediaDocument doc) =>
      match doc with
      | .documentEmpty => ([], .castFailed)
      | .document _ size attrs =>
        let fileName := findFileName attrs
        if fileName = "" then ([], .missingFilename)
        else if !dbOk then ([], .dbUnavailable)
        else
          let row : FileRow :=
            { id := id0
              name := fileName
              type := "file"
              mimeType := "application/octet-stream"
              size := size
              category := some "document"
              encrypted := some false
              userId := 7331706161
              status := some "active"
              channelId := some confChannelId
              parentId := none }
          match res0 with
          | .ok => ([row], .inserted)
          | _ => ([row], .abandoned)
    | _ => ([], .notDocument)

/-- The per-update filtering of botUpdateHandler.Handle for one
tg.UpdateNewChannelMessage (bot_handler.go lines 73-137): cast the message,
require a channel peer, compare the peer channel id against both the raw
configured id and its normalized form, and hand matching messages to
handleNewMessage; everything else is only logged. -/
def botHandleUpdate (confChannelId : Int) (dbOk : Bool) (res0 : InsertResult)
    (id0 : String) (msg : MessageClass) : List FileRow × Outcome :=
  match msg with
  | .messageEmpty => ([], .castFailed)
  | .message mid peerId media =>
    match peerId with
    | .peerChannel cid =>
      if cid = confChannelId ∨ cid = normalizeChannelId confChannelId then
        botHandleNewMessage confChannelId dbOk res0 id0 (.message mid peerId media)
      else ([], .filtered)
    | _ => ([], .ignoredPeer)

/-- botUpdateHandler.Handle (bot_handler.go lines 50-151): ONLY the
tg.Updates batch case processes messages; tg.UpdateShort, tg.UpdatesTooLong
and the default case are logged and dropped, even when the short update
wraps a channel message. The store oracles are indexed per position in the
batch. -/
def botHandle (confChannelId : Int) (dbOk : Bool) (res : Nat → InsertResult)
    (ids : Nat → String) (updates : UpdatesClass) :
    List (List FileRow × Outcome) :=
  match updates with
  | .updates us =>
    us.enum.filterMap fun p =>
      match p.2 with
      | .updateNewChannelMessage m =>
        some (botHandleUpdate confChannelId dbOk (res p.1) (ids p.1) m)
      | .otherUpdate => none
  | .updateShort _ => []
  | .updatesTooLong => []
  | .otherUpdates => []

/-! ### Integrated handler (backup_2025_05_10_final/integrated_bot.go) -/

/-- ASCII lowercase of one character, the relevant fragment of Go
strings.ToLower for the extension strings compared by the MIME table (all
table entries are ASCII). -/
def asciiLower (c : Char) : Char :=
  if 65 ≤ c.toNat ∧ c.toNat ≤ 90 then Char.ofNat (c.toNat + 32) else c

/-- Go strings.ToLower restricted to ASCII input, as applied to filename
extensions. -/
def stringLower (s : String) : String :=
  String.mk (s.data.map asciiLower)

/-- The extension-to-MIME table of integratedUpdateHandler.processDocument
(lines 324-353): switch on the lowercased filepath.Ext of the (possibly
disambiguated) filename, defaulting to application/octet-stream, also when
there is no extension. -/
def integratedMimeType (fileName : String) : String :=
  let ext := filepathExt fileName
  if ext = "" then "application/octet-stream"
  else
    let e := stringLower ext
    if e = ".jpg" ∨ e = ".jpeg" then "image/jpeg"
    else if e = ".png" then "image/png"
    else if e = ".gif" then "image/gif"
    else if e = ".pdf" then "application/pdf"
    else if e = ".mp4" then "video/mp4"
    else if e = ".mp3" then "audio/mpeg"
    else if e = ".txt" then "text/plain"
    else if e = ".doc" ∨ e = ".docx" then "application/msword"
    else if e = ".xls" ∨ e = ".xlsx" then "application/vnd.ms-excel"
    else if e = ".zip" then "application/zip"
    else if e = ".exe" then "application/x-msdownload"
    else "application/octet-stream"

/-- The proactive rename of integrated_bot.go lines 272-292, applied when a
row with the same name and user already exists: split at the last dot and
insert "_" ++ timestamp ++ "_" ++ an 8-character UUID slice between base
name and extension. -/
def integratedUniqueName (fileName ts tok8 : String) : String :=
  match splitAtLastDot fileName.data with
  | some (b, e) => String.mk b ++ "_" ++ ts ++ "_" ++ tok8 ++ String.mk e
  | none => fileName ++ "_" ++ ts ++ "_" ++ tok8

/-- integratedUpdateHandler.processDocument (lines 235-385): cast the
document, find the filename attribute (empty means missing, early return),
proactively rename when a same-named row for user 7331706161 already exists
(nameTaken models that lookup), compute the MIME type from the extension
table, and perform a single insert attempt with no retry. The INSERT
statement (lines 360-363) binds only id, name, size, type, user_id,
parent_id, mime_type and the timestamps: category, encrypted, status and
channel_id are not set. -/
def integratedProcessDocument (parentId : String) (nameTaken : Bool)
    (res0 : InsertResult) (id0 ts tok8 : String) (doc : DocumentClass)
    (cid : Int) : List FileRow × Outcome :=
  match doc with
  | .documentEmpty => ([], .castFailed)
  | .document _ size attrs =>
    let fileName0 := findFileName attrs
    if fileName0 = "" then ([], .missingFilename)
    else
      let fileName := if nameTaken then integratedUniqueName fileName0 ts tok8 else fileName0
      let row : FileRow :=
        { id := id0
          name := fileName
          type := "file"
          mimeType := integratedMimeType fileName
          size := size
          category := none
          encrypted := none
          userId := 7331706161
          status := none
          channelId := none
          parentId := if parentId = "" then none else some parentId }
      match res0 with
      | .ok => ([row], .inserted)
      | _ => ([row], .abandoned)

/-! ### Backup simplebot writer (backup_2025_05_10/simplebot_main.go) -/

/-- The row bound by updateHandler.processDocument of simplebot_main.go
(lines 204-220): MIME type from Go mime.TypeByExtension on the filename
extension (typeByExt models that platform table; an empty answer falls back
to application/octet-stream), ParentId from the -parent flag. -/
def simplebotMkRow (typeByExt : String → String) (parentId : String)
    (fileName : String) (size : Int) (cid : Int) (rowId : String) : FileRow :=
  { id := rowId
    name := fileName
    type := "file"
    mimeType :=
      let t := typeByExt (filepathExt fileName)
      if t = "" then "application/octet-stream" else t
    size := size
    category := some "document"
    encrypted := some false
    userId := 7331706161
    status := some "active"
    channelId := some cid
    parentId := some parentId }

/-- The insert-and-retry phase of simplebot updateHandler.processDocument
(lines 237-305). On a duplicate-key error of the first attempt, retry with
"_" ++ timestamp ++ "_" ++ an 8-character UUID slice appended to the full
original name and a fresh id; on a duplicate-key error of that retry, retry
once more with a 12-character UUID slice prefixed (with "_") to
filepath.Base of the original name and another fresh id; any other failure,
and a failure of the second retry, abandons the message. -/
def simplebotInsertPhase (res : Nat → InsertResult) (ids : Nat → String)
    (ts suf8 tok12 : String) (typeByExt : String → String) (parentId : String)
    (fileName : String) (size : Int) (cid : Int) : List FileRow × Outcome :=
  let row0 := simplebotMkRow typeByExt parentId fileName size cid (ids 0)
  match res 0 with
  | .ok => ([row0], .inserted)
  | .dupKey =>
    let row1 := { row0 with name := fileName ++ "_" ++ ts ++ "_" ++ suf8, id := ids 1 }
    match res 1 with
    | .ok => ([row0, row1], .inserted)
    | .dupKey =>
      let row2 := { row1 with name := tok12 ++ "_" ++ filepathBase fileName, id := ids 2 }
      match res 2 with
      | .ok => ([row0, row1, row2], .inserted)
      | _ => ([row0, row1, row2], .abandoned)
    | .otherErr => ([row0, row1], .abandoned)
  | .otherErr => ([row0], .abandoned)

/-- simplebot updateHandler.processDocument (lines 148-305): cast the
document, find the filename attribute (empty means missing, early return),
test the database connection, then run the insert-and-retry phase. -/
def simplebotProcessDocument (dbOk : Bool) (res : Nat → InsertResult)
    (ids : Nat → String) (ts suf8 tok12 : String) (typeByExt : String → String)
    (parentId : String) (doc : DocumentClass) (cid : Int) :
    List FileRow × Outcome :=
  match doc with
  | .documentEmpty => ([], .castFailed)
  | .document _ size attrs =>
    let fileName := findFileName attrs
    if fileName = "" then ([], .missingFilename)
    else if !dbOk then ([], .dbUnavailable)
    else simplebotInsertPhase res ids ts suf8 tok12 typeByExt parentId fileName size cid

/-! ### Shared helper lemmas -/

/-- A non-negative configured id is returned unchanged by the handler
mapping. -/
theorem normalizeChannelId_of_nonneg (c : Int) (h : 0 ≤ c) :
    normalizeChannelId c = c := by
  simp only [normalizeChannelId]
  split_ifs <;> omega

/-- A negative configured id of magnitude at most 10^6 is returned
unchanged by the handler mapping. -/
theorem normalizeChannelId_of_small_neg (c : Int) (h1 : -1000000 ≤ c)
    (h2 : c < 0) : normalizeChannelId c = c := by
  simp only [normalizeChannelId]
  split_ifs <;> omega

/-- When the attribute list holds no filename attribute, the Go loop leaves
fileName as the empty string. -/
theorem findFileName_of_no_filename_attr (attrs : List DocAttribute)
    (h : ∀ n : String, DocAttribute.filename n ∉ attrs) :
    findFileName attrs = "" := by
  induction attrs with
  | nil => rfl
  | cons a rest ih =>
    cases a with
    | filename n => exact absurd (List.mem_cons_self _ _) (h n)
    | otherAttr =>
      simp only [findFileName]
      exact ih fun n hn => h n (List.mem_cons_of_mem _ hn)

/-! ### Claim C1 -/

/-- Claim C1: for every valid broadcast-class internal channel id x
(x positive; bounded so that the int64 encoding -(10^12 + x) does not
overflow), normalize (denormalize x broadcast) = x, and for every valid
legacy-class internal id x (x positive with -(10^6 + x) still above the
broadcast threshold -10^12, i.e. x at most 10^12 - 10^6; a larger x would
put the public encoding out of the legacy range and hence not be a valid
legacy id), normalize (denormalize x legacy) = x, with normalize the
magnitude-threshold mapping implemented by the handlers. -/
theorem c1_normalize_denormalize_round_trip :
    (∀ x : Int, 0 < x → x ≤ 2 ^ 63 - 1 - 10 ^ 12 →
      normalizeChannelId (denormalizeBroadcast x) = x) ∧
    (∀ x : Int, 0 < x → x ≤ 10 ^ 12 - 10 ^ 6 →
      normalizeChannelId (denormalizeLegacy x) = x) := by
  constructor <;> intro x hx hx2 <;>
    simp only [normalizeChannelId, denormalizeBroadcast, denormalizeLegacy] <;>
    split_ifs <;> omega

/-- Witness for C1 at the internal id 42 in both classes. -/
theorem c1_round_trip_witness :
    (0 < (42 : Int) ∧ (42 : Int) ≤ 2 ^ 63 - 1 - 10 ^ 12 ∧
      normalizeChannelId (denormalizeBroadcast 42) = 42) ∧
    (0 < (42 : Int) ∧ (42 : Int) ≤ 10 ^ 12 - 10 ^ 6 ∧
      normalizeChannelId (denormalizeLegacy 42) = 42) :=
  ⟨⟨by norm_num, by norm_num,
      c1_normalize_denormalize_round_trip.1 42 (by norm_num) (by norm_num)⟩,
   ⟨by norm_num, by norm_num,
      c1_normalize_denormalize_round_trip.2 42 (by norm_num) (by norm_num)⟩⟩

/-! ### Claim C4 -/

/-- Counterexample to claim C4: the implemented mapping never fails. The
out-of-range configured id 5 (and likewise -5) is passed through unchanged,
with no UnsupportedChannelIdFormat error anywhere in the code, and a
pipeline configured with channel id 5 silently uses it for comparison: a
message from peer channel 5 carrying a named document is ingested. -/
theorem c4_counterexample :
    normalizeChannelId 5 = 5 ∧ normalizeChannelId (-5) = -5 ∧
    standaloneHandleChannelMessage 5 true (fun _ => .ok) (fun _ => "id0") "ts"
        (.message 1 (.peerChannel 5)
          (some (.mediaDocument (.document 11 100 [.filename "a.txt"])))) =
      ([standaloneMkRow "a.txt" 100 5 "id0"], .inserted) := by
  refine ⟨rfl, rfl, ?_⟩
  decide

/-- Claim C4 amended: the implemented normalization is total and never
reports an error; every configured id outside the two documented ranges
(non-negative, or negative of magnitude at most 10^6) is passed through
unchanged and used directly for comparison. The only startup validation is
in BotHandler.Start, which rejects an empty bot token and the configured
channel id 0; any other out-of-range id is accepted. -/
theorem c4_amended_out_of_range_passes_through :
    (∀ c : Int, 0 ≤ c ∨ (-1000000 ≤ c ∧ c < 0) → normalizeChannelId c = c) ∧
    botStartValidate "token" 5 = .ok () ∧
    botStartValidate "token" 0 = .error "channel ID is required" := by
  refine ⟨fun c h => ?_, rfl, rfl⟩
  rcases h with h | ⟨h1, h2⟩
  · exact normalizeChannelId_of_nonneg c h
  · exact normalizeChannelId_of_small_neg c h1 h2

/-- Witness for the amended C4 at the out-of-range ids 5 and -7. -/
theorem c4_amended_witness :
    normalizeChannelId 5 = 5 ∧ normalizeChannelId (-7) = -7 :=
  ⟨c4_amended_out_of_range_passes_through.1 5 (Or.inl (by norm_num)),
   c4_amended_out_of_range_passes_through.1 (-7) (Or.inr ⟨by norm_num, by norm_num⟩)⟩

/-! ### Claim C2 -/

/-- Claim C2: an inbound channel message whose originating channel id (a
positive id, as the internal encoding carried in the peer is) differs from
the normalized form of the configured channel id is dropped with the
filtered outcome and zero insert attempts, in both the standalone handler
and the primary bot handler. -/
theorem c2_nonmatching_message_dropped (conf cid : Int) (hpos : 0 < cid)
    (hne : cid ≠ normalizeChannelId conf) (dbOk : Bool)
    (res : Nat → InsertResult) (ids : Nat → String) (ts : String)
    (res0 : InsertResult) (id0 : String) (mid : Int)
    (media : Option MessageMedia) :
    standaloneHandleChannelMessage conf dbOk res ids ts
        (.message mid (.peerChannel cid) media) = ([], .filtered) ∧
    botHandleUpdate conf dbOk res0 id0
        (.message mid (.peerChannel cid) media) = ([], .filtered) := by
  have hraw : cid ≠ conf := by
    by_cases hc : 0 ≤ conf
    · rw [normalizeChannelId_of_nonneg conf hc] at hne
      exact hne
    · intro h
      omega
  have hcond : ¬(cid = conf ∨ cid = normalizeChannelId conf) := by
    rintro (h | h)
    · exact hraw h
    · exact hne h
  constructor
  · simp only [standaloneHandleChannelMessage]
    rw [if_neg hcond]
  · simp only [botHandleUpdate]
    rw [if_neg hcond]

/-- Witness for C2: configured broadcast id -1000000000777 normalizes to
777; a message from peer channel 5 is dropped by both handlers. -/
theorem c2_witness :
    standaloneHandleChannelMessage (-1000000000777) true (fun _ => .ok)
        (fun _ => "id0") "ts"
        (.message 1 (.peerChannel 5)
          (some (.mediaDocument (.document 11 100 [.filename "a.txt"])))) =
      ([], .filtered) ∧
    botHandleUpdate (-1000000000777) true .ok "id0"
        (.message 1 (.peerChannel 5)
          (some (.mediaDocument (.document 11 100 [.filename "a.txt"])))) =
      ([], .filtered) :=
  c2_nonmatching_message_dropped (-1000000000777) 5 (by norm_num) (by decide)
    true (fun _ => .ok) (fun _ => "id0") "ts" .ok "id0" 1
    (some (.mediaDocument (.document 11 100 [.filename "a.txt"])))

/-! ### Claim C10 -/

/-- Claim C10: a message whose peer is not a channel peer (a direct user
message or a basic-group message) causes zero insert attempts and no other
catalog action in both handlers, even when it carries a document attachment
with a filename. -/
theorem c10_nonchannel_peer_ignored (conf : Int) (dbOk : Bool)
    (res : Nat → InsertResult) (ids : Nat → String) (ts : String)
    (res0 : InsertResult) (id0 : String) (mid : Int) (p : Peer)
    (media : Option MessageMedia) (hp : ∀ c : Int, p ≠ .peerChannel c) :
    standaloneHandleChannelMessage conf dbOk res ids ts (.message mid p media) =
      ([], .ignoredPeer) ∧
    botHandleUpdate conf dbOk res0 id0 (.message mid p media) =
      ([], .ignoredPeer) := by
  cases p with
  | peerUser u => exact ⟨rfl, rfl⟩
  | peerChat c => exact ⟨rfl, rfl⟩
  | peerChannel c => exact absurd rfl (hp c)

/-- Witness for C10: a direct user message carrying a named document is
ignored by both handlers. -/
theorem c10_witness :
    standaloneHandleChannelMessage 777 true (fun _ => .ok) (fun _ => "id0")
        "ts"
        (.message 1 (.peerUser 9)
          (some (.mediaDocument (.document 11 100 [.filename "a.txt"])))) =
      ([], .ignoredPeer) ∧
    botHandleUpdate 777 true .ok "id0"
        (.message 1 (.peerUser 9)
          (some (.mediaDocument (.document 11 100 [.filename "a.txt"])))) =
      ([], .ignoredPeer) :=
  c10_nonchannel_peer_ignored 777 true (fun _ => .ok) (fun _ => "id0") "ts"
    .ok "id0" 1 (.peerUser 9)
    (some (.mediaDocument (.document 11 100 [.filename "a.txt"])))
    (fun c h => Peer.noConfusion h)

/-! ### Claim C8 -/

/-- Claim C8: a matching message whose media is a document attachment but
whose attributes contain no filename attribute is classified as missing
filename and causes zero insert attempts, in both the standalone handler
and the primary bot handler. -/
theorem c8_missing_filename_no_entry (dbOk : Bool) (res : Nat → InsertResult)
    (ids : Nat → String) (ts : String) (conf : Int) (res0 : InsertResult)
    (id0 : String) (did dsize mid : Int) (p : Peer)
    (attrs : List DocAttribute) (cid : Int)
    (h : ∀ n : String, DocAttribute.filename n ∉ attrs) :
    standaloneProcessDocument dbOk res ids ts (.document did dsize attrs) cid =
      ([], .missingFilename) ∧
    botHandleNewMessage conf dbOk res0 id0
        (.message mid p (some (.mediaDocument (.document did dsize attrs)))) =
      ([], .missingFilename) := by
  have hf := findFileName_of_no_filename_attr attrs h
  constructor
  · simp [standaloneProcessDocument, hf]
  · simp [botHandleNewMessage, hf]

/-- Witness for C8: a document with a single non-filename attribute. -/
theorem c8_witness :
    standaloneProcessDocument true (fun _ => .ok) (fun _ => "id0") "ts"
        (.document 11 100 [.otherAttr]) 777 = ([], .missingFilename) ∧
    botHandleNewMessage 777 true .ok "id0"
        (.message 1 (.peerChannel 777)
          (some (.mediaDocument (.document 11 100 [.otherAttr])))) =
      ([], .missingFilename) :=
  c8_missing_filename_no_entry true (fun _ => .ok) (fun _ => "id0") "ts" 777
    .ok "id0" 11 100 1 (.peerChannel 777) [.otherAttr] 777
    (fun n hn => DocAttribute.noConfusion (List.mem_singleton.mp hn))

/-! ### Claim C9 -/

/-- Claim C9: an insert attempt that fails with a store error other than a
duplicate-key violation ends the write for that message immediately: the
failing attempt is the last one (no retry), and the outcome is abandoned,
in both the standalone writer and the backup simplebot writer, whether the
non-collision error hits the first attempt or a retry. -/
theorem c9_noncollision_error_no_retry :
    (∀ (res : Nat → InsertResult) ids ts fileName size cid,
      res 0 = InsertResult.otherErr →
      (standaloneInsertPhase res ids ts fileName size cid).1.length = 1 ∧
      (standaloneInsertPhase res ids ts fileName size cid).2 = .abandoned) ∧
    (∀ (res : Nat → InsertResult) ids ts fileName size cid,
      res 0 = InsertResult.dupKey → res 1 = InsertResult.otherErr →
      (standaloneInsertPhase res ids ts fileName size cid).1.length = 2 ∧
      (standaloneInsertPhase res ids ts fileName size cid).2 = .abandoned) ∧
    (∀ (res : Nat → InsertResult) ids ts suf8 tok12 tbe pid fileName size cid,
      res 0 = InsertResult.otherErr →
      (simplebotInsertPhase res ids ts suf8 tok12 tbe pid fileName size cid).1.length = 1 ∧
      (simplebotInsertPhase res ids ts suf8 tok12 tbe pid fileName size cid).2 = .abandoned) ∧
    (∀ (res : Nat → InsertResult) ids ts suf8 tok12 tbe pid fileName size cid,
      res 0 = InsertResult.dupKey → res 1 = InsertResult.otherErr →
      (simplebotInsertPhase res ids ts suf8 tok12 tbe pid fileName size cid).1.length = 2 ∧
      (simplebotInsertPhase res ids ts suf8 tok12 tbe pid fileName size cid).2 = .abandoned) := by
  refine ⟨fun res ids ts fileName size cid h0 => ?_,
    fun res ids ts fileName size cid h0 h1 => ?_,
    fun res ids ts suf8 tok12 tbe pid fileName size cid h0 => ?_,
    fun res ids ts suf8 tok12 tbe pid fileName size cid h0 h1 => ?_⟩
  · simp [standaloneInsertPhase, h0]
  · simp [standaloneInsertPhase, h0, h1]
  · simp [simplebotInsertPhase, h0]
  · simp [simplebotInsertPhase, h0, h1]

/-- Witness for C9: oracles failing with a non-collision error on the first
attempt and on the first retry, for both writers. -/
theorem c9_witness :
    ((fun _ : Nat => InsertResult.otherErr) 0 = InsertResult.otherErr ∧
      (standaloneInsertPhase (fun _ => .otherErr) (fun _ => "id") "ts" "x.txt" 10 777).1.length = 1 ∧
      (standaloneInsertPhase (fun _ => .otherErr) (fun _ => "id") "ts" "x.txt" 10 777).2 = .abandoned) ∧
    ((simplebotInsertPhase (fun n => if n = 0 then .dupKey else .otherErr)
        (fun _ => "id") "ts" "s8" "t12" (fun _ => "") "p" "x.txt" 10 777).1.length = 2 ∧
      (simplebotInsertPhase (fun n => if n = 0 then .dupKey else .otherErr)
        (fun _ => "id") "ts" "s8" "t12" (fun _ => "") "p" "x.txt" 10 777).2 = .abandoned) :=
  ⟨⟨rfl, c9_noncollision_error_no_retry.1 (fun _ => .otherErr) (fun _ => "id")
      "ts" "x.txt" 10 777 rfl⟩,
   c9_noncollision_error_no_retry.2.2.2 (fun n => if n = 0 then .dupKey else .otherErr)
      (fun _ => "id") "ts" "s8" "t12" (fun _ => "") "p" "x.txt" 10 777 rfl rfl⟩

/-! ### Claim C3 -/

/-- Counterexample to claim C3 at the filename "x.txt" with an
always-colliding store. In the standalone writer there is no second retry
at all: exactly two insert attempts happen and the message is abandoned
after the single retry. Moreover the retry name appends the timestamp after
the extension, "x.txt_20250510_120000", not the extension-preserving
"x_20250510_120000.txt" the claim states; the backup simplebot writer
likewise produces "x.txt_20250510_120000_aabbccdd" on its first retry. -/
theorem c3_counterexample :
    ((standaloneInsertPhase (fun _ => .dupKey) (fun _ => "id") "20250510_120000"
        "x.txt" 10 777).1.map FileRow.name =
      ["x.txt", "x.txt_20250510_120000"]) ∧
    ((standaloneInsertPhase (fun _ => .dupKey) (fun _ => "id") "20250510_120000"
        "x.txt" 10 777).2 = .abandoned) ∧
    ("x.txt_20250510_120000" ≠ "x_20250510_120000.txt") ∧
    ((simplebotInsertPhase (fun _ => .dupKey) (fun _ => "id") "20250510_120000"
        "aabbccdd" "aabbccddeeff" (fun _ => "") "p" "x.txt" 10 777).1.map FileRow.name =
      ["x.txt", "x.txt_20250510_120000_aabbccdd", "aabbccddeeff_x.txt"]) ∧
    ("x.txt_20250510_120000_aabbccdd" ≠ "x_20250510_120000_aabbccdd.txt") := by
  refine ⟨?_, rfl, by decide, ?_, by decide⟩ <;> rfl

/-- Claim C3 amended: on a name-uniqueness violation the standalone writer
retries exactly once, appending an underscore and the timestamp to the full
original name (the extension is not preserved at the end) with a fresh id,
and abandons the message on any failure of that retry; the backup simplebot
writer retries up to twice, first appending underscore, timestamp,
underscore and an 8-character random token to the full original name with a
fresh id, then prefixing a 12-character random token and an underscore to
the original name with another fresh id, abandoning the message when the
second retry also fails. Abandonment is per message: the handler returns
normally. -/
theorem c3_amended_retry_policy :
    (∀ ids ts fileName size cid,
      standaloneInsertPhase (fun _ => .dupKey) ids ts fileName size cid =
        ([standaloneMkRow fileName size cid (ids 0),
          { standaloneMkRow fileName size cid (ids 0) with
              name := fileName ++ "_" ++ ts, id := ids 1 }],
         .abandoned)) ∧
    (∀ ids ts suf8 tok12 tbe pid fileName size cid,
      simplebotInsertPhase (fun _ => .dupKey) ids ts suf8 tok12 tbe pid fileName size cid =
        ([simplebotMkRow tbe pid fileName size cid (ids 0),
          { simplebotMkRow tbe pid fileName size cid (ids 0) with
              name := fileName ++ "_" ++ ts ++ "_" ++ suf8, id := ids 1 },
          { simplebotMkRow tbe pid fileName size cid (ids 0) with
              name := tok12 ++ "_" ++ filepathBase fileName, id := ids 2 }],
         .abandoned)) :=
  ⟨fun ids ts fileName size cid => rfl,
   fun ids ts suf8 tok12 tbe pid fileName size cid => rfl⟩

/-- With no prior same-named entry and a non-failing store, the integrated
writer attempts exactly one row, built from the extracted filename, the
extension-table MIME type, owner 7331706161 and the configured parent, with
no channel id and no status bound. -/
theorem integrated_insert_ok (parentId id0 ts tok8 : String) (did size : Int)
    (attrs : List DocAttribute) (cid : Int)
    (hname : findFileName attrs ≠ "") :
    integratedProcessDocument parentId false .ok id0 ts tok8
        (.document did size attrs) cid =
      ([{ id := id0, name := findFileName attrs, type := "file",
          mimeType := integratedMimeType (findFileName attrs), size := size,
          category := none, encrypted := none, userId := 7331706161,
          status := none, channelId := none,
          parentId := if parentId = "" then none else some parentId }],
       .inserted) := by
  simp only [integratedProcessDocument]
  rw [if_neg hname]
  simp

/-! ### Claim C5 -/

/-- Every row the standalone writer attempts carries the hardcoded MIME
type application/octet-stream, whatever the filename. -/
theorem standalone_rows_mime_octet (dbOk : Bool) (res : Nat → InsertResult)
    (ids : Nat → String) (ts : String) (doc : DocumentClass) (cid : Int) :
    ((standaloneProcessDocument dbOk res ids ts doc cid).1.map
        FileRow.mimeType).all (fun m => m == "application/octet-stream") = true := by
  cases doc with
  | documentEmpty => rfl
  | document did size attrs =>
    simp only [standaloneProcessDocument]
    split_ifs with h1 h2
    · rfl
    · rfl
    · simp only [standaloneInsertPhase, standaloneMkRow]
      cases res 0 with
      | ok => rfl
      | otherErr => rfl
      | dupKey =>
        cases res 1 with
        | ok => rfl
        | dupKey => rfl
        | otherErr => rfl

/-- Every row the primary bot handler attempts carries the hardcoded MIME
type application/octet-stream, whatever the filename. -/
theorem bot_rows_mime_octet (conf : Int) (dbOk : Bool) (res0 : InsertResult)
    (id0 : String) (m : MessageClass) :
    ((botHandleNewMessage conf dbOk res0 id0 m).1.map FileRow.mimeType).all
      (fun m2 => m2 == "application/octet-stream") = true := by
  cases m with
  | messageEmpty => rfl
  | message mid p media =>
    cases media with
    | none => rfl
    | some mm =>
      cases mm with
      | otherMedia => rfl
      | mediaDocument doc =>
        cases doc with
        | documentEmpty => rfl
        | document did size attrs =>
          simp only [botHandleNewMessage]
          split_ifs with h1 h2
          · rfl
          · rfl
          · cases res0 with
            | ok => rfl
            | dupKey => rfl
            | otherErr => rfl

/-- Counterexample to claim C5: ingesting a document named "report.pdf"
through the standalone writer (the cited extractor) produces exactly one
attempted entry, and its MIME type is the hardcoded
application/octet-stream, not application/pdf. -/
theorem c5_counterexample :
    ((standaloneProcessDocument true (fun _ => .ok) (fun _ => "id0") "ts"
        (.document 11 100 [.filename "report.pdf"]) 777).1.map
          FileRow.mimeType) = ["application/octet-stream"] ∧
    (standaloneProcessDocument true (fun _ => .ok) (fun _ => "id0") "ts"
        (.document 11 100 [.filename "report.pdf"]) 777).2 = .inserted ∧
    "application/octet-stream" ≠ "application/pdf" := by
  refine ⟨rfl, rfl, by decide⟩

/-- Claim C5 amended: only the integrated handler infers the MIME type from
the filename extension, via its hardcoded table defaulting to
application/octet-stream; through it, ingesting "report.pdf" with no prior
same-named entry and a non-colliding store produces exactly one entry with
MIME type application/pdf. The standalone writer and the primary bot
handler always set application/octet-stream on every attempted row. -/
theorem c5_amended_mime_inference :
    (∀ parentId id0 ts tok8 did size cid,
      integratedProcessDocument parentId false .ok id0 ts tok8
          (.document did size [.filename "report.pdf"]) cid =
        ([{ id := id0, name := "report.pdf", type := "file",
            mimeType := "application/pdf", size := size, category := none,
            encrypted := none, userId := 7331706161, status := none,
            channelId := none,
            parentId := if parentId = "" then none else some parentId }],
         .inserted)) ∧
    (∀ dbOk res ids ts doc cid,
      ((standaloneProcessDocument dbOk res ids ts doc cid).1.map
          FileRow.mimeType).all (fun m => m == "application/octet-stream") = true) ∧
    (∀ conf dbOk res0 id0 m,
      ((botHandleNewMessage conf dbOk res0 id0 m).1.map FileRow.mimeType).all
        (fun m2 => m2 == "application/octet-stream") = true) := by
  refine ⟨fun parentId id0 ts tok8 did size cid => ?_,
    standalone_rows_mime_octet, bot_rows_mime_octet⟩
  have h := integrated_insert_ok parentId id0 ts tok8 did size
    [.filename "report.pdf"] cid (by decide)
  rw [show findFileName [.filename "report.pdf"] = "report.pdf" from rfl] at h
  rw [show integratedMimeType "report.pdf" = "application/pdf" from by decide] at h
  exact h

/-! ### Claim C6 -/

/-- Counterexample to claim C6: the entry created by the integrated writer
for a named document carries neither a source channel id nor a status (its
INSERT statement binds no channel_id and no status column), contradicting
the claim that every created entry has sourceChannelId set and
status active. -/
theorem c6_counterexample :
    ((integratedProcessDocument "" false .ok "id0" "ts" "tok8"
        (.document 11 100 [.filename "a.txt"]) 777).1.map
          (fun r => (r.channelId, r.status))) =
      [((none : Option Int), (none : Option String))] ∧
    (integratedProcessDocument "" false .ok "id0" "ts" "tok8"
        (.document 11 100 [.filename "a.txt"]) 777).2 = .inserted ∧
    (none : Option Int) ≠ some 777 := by
  refine ⟨rfl, rfl, by decide⟩

/-- Claim C6 amended: with a reachable store and no collision, the
standalone writer creates exactly one entry with kind file, the extracted
name and size, the hardcoded application/octet-stream MIME type, the fresh
generated id, owner 7331706161, sourceChannelId the channel id carried in
the message peer, status active and root parent (it has no target-parent
configuration). The primary bot handler creates exactly one entry with the
same fields except that its channel_id column is bound to the CONFIGURED
channel id exactly as given in configuration (public encoding), whatever
channel the message came from, not to the internal channel id carried in
the message peer. The integrated writer creates exactly one entry with kind
file, extracted name and size, table-inferred MIME type, fresh id, owner
7331706161 and parentId the configured target parent (root when
unconfigured), but with no sourceChannelId and no status bound. -/
theorem c6_amended_entry_fields :
    (∀ (res : Nat → InsertResult) ids ts did size attrs cid,
      findFileName attrs ≠ "" → res 0 = InsertResult.ok →
      standaloneProcessDocument true res ids ts (.document did size attrs) cid =
        ([standaloneMkRow (findFileName attrs) size cid (ids 0)], .inserted)) ∧
    (∀ conf id0 mid p did size attrs,
      findFileName attrs ≠ "" →
      botHandleNewMessage conf true .ok id0
          (.message mid p (some (.mediaDocument (.document did size attrs)))) =
        ([{ id := id0, name := findFileName attrs, type := "file",
            mimeType := "application/octet-stream", size := size,
            category := some "document", encrypted := some false,
            userId := 7331706161, status := some "active",
            channelId := some conf, parentId := none }],
         .inserted)) ∧
    (∀ parentId id0 ts tok8 did size attrs cid,
      findFileName attrs ≠ "" →
      integratedProcessDocument parentId false .ok id0 ts tok8
          (.document did size attrs) cid =
        ([{ id := id0, name := findFileName attrs, type := "file",
            mimeType := integratedMimeType (findFileName attrs), size := size,
            category := none, encrypted := none, userId := 7331706161,
            status := none, channelId := none,
            parentId := if parentId = "" then none else some parentId }],
         .inserted)) := by
  refine ⟨?_, ?_, ?_⟩
  · intro res ids ts did size attrs cid hname hres
    simp only [standaloneProcessDocument, standaloneInsertPhase]
    rw [if_neg hname]
    simp [hres]
  · intro conf id0 mid p did size attrs hname
    simp only [botHandleNewMessage]
    rw [if_neg hname]
    simp
  · intro parentId id0 ts tok8 did size attrs cid hname
    exact integrated_insert_ok parentId id0 ts tok8 did size attrs cid hname

/-- Witness for the amended C6 at a concrete document named "a.txt". The
bot handler case uses the configured broadcast id -1000000000777 and a
message from its internal channel 777: the created entry binds channel_id
-1000000000777, the configured id, not the peer id 777. -/
theorem c6_amended_witness :
    standaloneProcessDocument true (fun _ => .ok) (fun _ => "id0") "ts"
        (.document 11 100 [.filename "a.txt"]) 777 =
      ([standaloneMkRow "a.txt" 100 777 "id0"], .inserted) ∧
    botHandleNewMessage (-1000000000777) true .ok "id0"
        (.message 1 (.peerChannel 777)
          (some (.mediaDocument (.document 11 100 [.filename "a.txt"])))) =
      ([{ id := "id0", name := "a.txt", type := "file",
          mimeType := "application/octet-stream", size := 100,
          category := some "document", encrypted := some false,
          userId := 7331706161, status := some "active",
          channelId := some (-1000000000777), parentId := none }],
       .inserted) ∧
    integratedProcessDocument "parent1" false .ok "id0" "ts" "tok8"
        (.document 11 100 [.filename "a.txt"]) 777 =
      ([{ id := "id0", name := "a.txt", type := "file",
          mimeType := integratedMimeType "a.txt", size := 100,
          category := none, encrypted := none, userId := 7331706161,
          status := none, channelId := none,
          parentId := if "parent1" = "" then none else some "parent1" }],
       .inserted) :=
  ⟨c6_amended_entry_fields.1 (fun _ => .ok) (fun _ => "id0") "ts" 11 100
      [.filename "a.txt"] 777 (by decide) rfl,
   c6_amended_entry_fields.2.1 (-1000000000777) "id0" 1 (.peerChannel 777)
      11 100 [.filename "a.txt"] (by decide),
   c6_amended_entry_fields.2.2 "parent1" "id0" "ts" "tok8" 11 100
      [.filename "a.txt"] 777 (by decide)⟩

/-! ### Claim C7 -/

/-- Counterexample to claim C7: the primary bot handler drops a
message-bearing short update. The same matching document message is
ingested when delivered inside a batch but produces nothing when delivered
inside a tg.UpdateShort, so the two delivery shapes are not ingested the
same by the cited dispatcher. -/
theorem c7_counterexample :
    botHandle (-1000000000777) true (fun _ => .ok) (fun _ => "id0")
        (.updateShort (.updateNewChannelMessage
          (.message 1 (.peerChannel 777)
            (some (.mediaDocument (.document 11 100 [.filename "a.txt"])))))) =
      [] ∧
    botHandle (-1000000000777) true (fun _ => .ok) (fun _ => "id0")
        (.updates [.updateNewChannelMessage
          (.message 1 (.peerChannel 777)
            (some (.mediaDocument (.document 11 100 [.filename "a.txt"]))))]) ≠
      [] := by
  refine ⟨rfl, by decide⟩

/-- Claim C7 amended: the standalone dispatcher unpacks both shapes — a
message wrapped in a tg.UpdateShort is handled exactly like a batch of one
— and messageless shapes (tg.UpdatesTooLong, other update kinds, a short
update wrapping a non-message update) reach no extractor in either handler;
the primary bot handler, however, processes only batched tg.Updates and
drops every short update, message-bearing or not. -/
theorem c7_amended_update_shapes :
    (∀ conf dbOk (res : Nat → Nat → InsertResult) ids ts m,
      standaloneHandle conf dbOk res ids ts
          (.updateShort (.updateNewChannelMessage m)) =
        [standaloneHandleChannelMessage conf dbOk (res 0) (ids 0) ts m] ∧
      standaloneHandle conf dbOk res ids ts
          (.updates [.updateNewChannelMessage m]) =
        [standaloneHandleChannelMessage conf dbOk (res 0) (ids 0) ts m]) ∧
    (∀ conf dbOk (res : Nat → Nat → InsertResult) ids ts,
      standaloneHandle conf dbOk res ids ts .updatesTooLong = [] ∧
      standaloneHandle conf dbOk res ids ts (.updateShort .otherUpdate) = [] ∧
      standaloneHandle conf dbOk res ids ts .otherUpdates = []) ∧
    (∀ conf dbOk (res : Nat → InsertResult) ids u,
      botHandle conf dbOk res ids (.updateShort u) = [] ∧
      botHandle conf dbOk res ids .updatesTooLong = []) :=
  ⟨fun conf dbOk res ids ts m => ⟨rfl, rfl⟩,
   fun conf dbOk res ids ts => ⟨rfl, rfl, rfl⟩,
   fun conf dbOk res ids u => ⟨rfl, rfl⟩⟩

end TeldriveBot
